import Mathlib

/-!
Verification of the pyTigerGraph `gds/featurizer.py` subsystem
(algorithm catalog, resolver, installer, parameter inferencer,
schema mutator, runner).

The Python code is shallowly embedded: pure string manipulation is
translated to executable Lean functions over `List Char` (structural or
fuel-bounded recursion so that every definition reduces in the kernel),
and every remote interaction (HTTP fetch of algorithm source, GSQL admin
commands, installed-query listing, schema metadata, query execution) is
modelled by explicit inputs plus an event trace recording each remote
call in program order.
-/

namespace PyTG

/-! ## Python string primitives

Each helper mirrors the semantics of the corresponding Python `str`
operation for the inputs this code base produces (plain ASCII text). -/

/-- Fuel-bounded worker for `str.split(sep)` with a non-empty separator.
Fuel is consumed one character at a time, so `length + 1` fuel always
suffices. -/
def chSplit (sep : List Char) : Nat → List Char → List Char → List (List Char)
  | 0, cs, acc => [acc.reverse ++ cs]
  | fuel + 1, cs, acc =>
    match cs with
    | [] => [acc.reverse]
    | c :: rest =>
      if sep.isPrefixOf (c :: rest) then
        acc.reverse :: chSplit sep fuel (List.drop sep.length (c :: rest)) []
      else
        chSplit sep fuel rest (c :: acc)

/-- Python `s.split(sep)` for a non-empty separator (the only way the
source uses it). -/
def pySplit (s sep : String) : List String :=
  if sep.data = [] then [s]
  else (chSplit sep.data (s.data.length + 1) s.data []).map String.mk

/-- Python `needle in hay` substring test, via the split worker. -/
def pyContains (hay needle : String) : Bool :=
  decide (2 ≤ (pySplit hay needle).length)

/-- Fuel-bounded worker for `str.replace(old, new)` with non-empty `old`. -/
def chReplace (old new : List Char) : Nat → List Char → List Char
  | 0, cs => cs
  | fuel + 1, cs =>
    match cs with
    | [] => []
    | c :: rest =>
      if old.isPrefixOf (c :: rest) then
        new ++ chReplace old new fuel (List.drop old.length (c :: rest))
      else
        c :: chReplace old new fuel rest

/-- Python `s.replace(old, new)` (all occurrences, left to right). -/
def pyReplace (s old new : String) : String :=
  String.mk (chReplace old.data new.data (s.data.length + 1) s.data)

/-- Worker for whitespace split: accumulates the current word reversed. -/
def wsSplitAux : List Char → List Char → List (List Char)
  | [], cur => if cur = [] then [] else [cur.reverse]
  | c :: rest, cur =>
    if c.isWhitespace then
      if cur = [] then wsSplitAux rest []
      else cur.reverse :: wsSplitAux rest []
    else wsSplitAux rest (c :: cur)

/-- Python `s.split()` — split on whitespace runs, dropping empties. -/
def pySplitWs (s : String) : List String :=
  (wsSplitAux s.data []).map String.mk

/-- Python `s.strip()`. -/
def pyStrip (s : String) : String :=
  String.mk (((s.data.dropWhile Char.isWhitespace).reverse.dropWhile
    Char.isWhitespace).reverse)

/-- Python `s.upper()` (ASCII inputs only here). -/
def pyUpper (s : String) : String := String.mk (s.data.map Char.toUpper)

/-- Python `s.lower()` (ASCII inputs only here). -/
def pyLower (s : String) : String := String.mk (s.data.map Char.toLower)

/-- Index of the first occurrence of `c`, Python `s.find(c)` (-1 when absent). -/
def chFindIdx (c : Char) : List Char → Nat → Option Nat
  | [], _ => none
  | c' :: rest, i => if c' = c then some i else chFindIdx c rest (i + 1)

/-- Python `s.find(c)` for a single character. -/
def pyFindChar (s : String) (c : Char) : Int :=
  match chFindIdx c s.data 0 with
  | some i => (i : Int)
  | none => -1

/-- Python slice `s[start:stop]` with Python's negative-index semantics. -/
def pySliceInt (s : String) (start stop : Int) : String :=
  let n : Int := s.data.length
  let st : Int := if start < 0 then max (n + start) 0 else min start n
  let sp : Int := if stop < 0 then max (n + stop) 0 else min stop n
  String.mk ((s.data.drop st.toNat).take (sp - st).toNat)

/-- Python `s[:-n]` (drop the last `n` characters, clamped at empty). -/
def pyDropRightN (s : String) (n : Nat) : String :=
  String.mk (s.data.take (s.data.length - n))

/-- Python `lst[-1]` on a list of strings, defaulting to `""` (the source
only indexes results of `split`, which are never empty lists). -/
def pyLastD (l : List String) : String := l.getLastD ""

/-- Numeric value of a digit run. -/
def digitsVal (l : List Char) : Nat :=
  l.foldl (fun a c => a * 10 + (c.toNat - 48)) 0

/-- Python `int(s)`: strip whitespace, optional sign, non-empty digit run;
`none` models the `ValueError` raised on anything else. -/
def pyIntOpt (s : String) : Option Int :=
  match (pyStrip s).data with
  | [] => none
  | '+' :: r =>
    if r ≠ [] ∧ r.all Char.isDigit then some (digitsVal r) else none
  | '-' :: r =>
    if r ≠ [] ∧ r.all Char.isDigit then some (-(digitsVal r : Int)) else none
  | r =>
    if r.all Char.isDigit then some (digitsVal r) else none

/-- Digit-run mantissa part check: `d`, `d.`, `.d` or `d.d`. -/
def mantOk (l : List Char) : Bool :=
  match chSplit ['.'] (l.length + 1) l [] with
  | [a] => decide (a ≠ []) && a.all Char.isDigit
  | [a, b] =>
    (decide (a ≠ []) || decide (b ≠ [])) && a.all Char.isDigit && b.all Char.isDigit
  | _ => false

/-- Exponent part check: optional sign then a non-empty digit run. -/
def expPartOk (l : List Char) : Bool :=
  match l with
  | '+' :: r => decide (r ≠ []) && r.all Char.isDigit
  | '-' :: r => decide (r ≠ []) && r.all Char.isDigit
  | r => decide (r ≠ []) && r.all Char.isDigit

/-- Whether Python `float(s)` succeeds on an ordinary decimal literal
(the only shape appearing in algorithm headers; `inf`/`nan`/underscore
forms are not modelled). -/
def pyFloatOk (s : String) : Bool :=
  let cs := (pyLower (pyStrip s)).data
  let cs := match cs with
    | '+' :: r => r
    | '-' :: r => r
    | r => r
  match chSplit ['e'] (cs.length + 1) cs [] with
  | [m] => mantOk m
  | [m, e] => mantOk m && expPartOk e
  | _ => false

/-- Python `str.splitlines()[-1]` feed: split on `\n` after removing one
trailing newline (matches `splitlines` for `\n`-separated text). -/
def pySplitLines (s : String) : List String :=
  if s = "" then []
  else pySplit (if s.data.getLastD ' ' = '\n' then pyDropRightN s 1 else s) "\n"

/-- Last line of a remote response (`resp.splitlines()[-1]`). -/
def lastLine (s : String) : String := pyLastD (pySplitLines s)

/-- Separator-interleaved concatenation. -/
def joinSep (sep : String) : List String → String
  | [] => ""
  | [x] => x
  | x :: rest => x ++ sep ++ joinSep sep rest

/-- Python `''.join(tasks)`. -/
def strJoin (l : List String) : String := l.foldl (· ++ ·) ""

end PyTG


namespace PyTG

/-! ## Data model

Values that `Featurizer._get_Params` can place in a parameter dictionary.
Python floats are kept as their stripped literal text (`vFloat`): no
claim inspects float numerics, only which parameters are bound. -/

inductive PyVal where
  | vInt (n : Int)
  | vFloat (lit : String)
  | vBool (b : Bool)
  | vStr (s : String)
  | vNone
deriving DecidableEq, Repr

/-- A Python `dict` with insertion order, as the source builds them. -/
abbrev PyDict (α : Type) := List (String × α)

/-- Python `d[k] = v`: update in place, else append. -/
def dictSet {α : Type} : PyDict α → String → α → PyDict α
  | [], k, v => [(k, v)]
  | (k', v') :: rest, k, v =>
    if k' = k then (k', v) :: rest else (k', v') :: dictSet rest k v

/-- Python `d.get(k)` / `k in d`. -/
def dictGet {α : Type} (d : PyDict α) (k : String) : Option α :=
  (d.find? (fun p => p.1 = k)).map Prod.snd

abbrev ParamsDict := PyDict PyVal

/-- A member of `_add_attribute`'s `target` list.  The source builds it
either from schema type names (strings) or — via
`target.clear(); target.append(schema_name)` — by appending the whole
caller-supplied list as a single element, so the list is heterogeneous. -/
inductive SchemaTarget where
  | tname (s : String)
  | tlist (l : List String)
deriving DecidableEq, Repr

/-- Python `str(t)` for a target (list repr used in the ALTER format). -/
def targetStr : SchemaTarget → String
  | .tname s => s
  | .tlist l => "[" ++ joinSep ", " (l.map (fun s => "'" ++ s ++ "'")) ++ "]"

/-- One remote interaction, recorded in program order. -/
inductive Event where
  | httpGet (url : String)
  | listAlgorithms
  | getInstalledQueries
  | gsql (cmd : String)
  | runInstalledQuery (name : String) (params : Option ParamsDict)
  | getVertexTypes
  | getEdgeTypes
  | getTypeMeta (t : SchemaTarget)
deriving DecidableEq, Repr

def Event.isGsql : Event → Bool
  | .gsql _ => true
  | _ => false

def Event.isHttpGet : Event → Bool
  | .httpGet _ => true
  | _ => false

def Event.isRunInstalled : Event → Bool
  | .runInstalledQuery _ _ => true
  | _ => false

def Event.isTypeMeta : Event → Bool
  | .getTypeMeta _ => true
  | _ => false

/-- Count the events satisfying `p`. -/
def countEv (p : Event → Bool) (evs : List Event) : Nat := evs.countP p

/-- Exceptions the featurizer raises.  `notFound` is the
`ValueError` for a name absent from the catalog; `validationError`
carries the reference URL embedded in the message; `metaError` is the
`KeyError`/`TypeError` escaping from a failed schema-type metadata
lookup; `keyError` is the `KeyError` on `queryResult_type_dict`. -/
inductive Err where
  | notFound
  | validationError (url : String)
  | connectionError (status : String)
  | schemaTypeError
  | metaError
  | keyError (k : String)
deriving DecidableEq, Repr

/-- The remote collaborators of the featurizer (`conn` plus the schema
and execution state behind it), treated as black boxes by the source:
`installed` is the key set of `getInstalledQueries()`;
`vertexAttrs`/`edgeAttrs` give a type's attribute-name list (`none`
models a failed lookup: `getEdgeType` scans schema entries by `Name`
equality and yields `{}` for an unknown name, so accessing
`['Attributes']` raises; the vertex side is modelled symmetrically);
`gsqlResp` is the admin-command response text; `runResult` the opaque
result of `runInstalledQuery`; `randSuffix` the `random_string(6)`
draw used in schema-change job names. -/
structure Conn where
  graphname : String
  installed : List String
  gsqlResp : String → String
  vertexTypes : List String
  edgeTypes : List String
  vertexAttrs : String → Option (List String)
  edgeAttrs : String → Option (List String)
  runResult : String → Option ParamsDict → Option String
  randSuffix : String

/-- Per-session featurizer state: the `params_dict` cache. -/
structure FeatState where
  params_dict : PyDict ParamsDict
deriving DecidableEq, Repr

/-! ## Catalog (`algo_dict`, `queryResult_type_dict`) -/

/-- The nested algorithm dictionary: leaves are raw source URLs. -/
inductive AlgoTree where
  | url (u : String)
  | node (children : List (String × AlgoTree))

/-- `_get_values`: depth-first flattening of the nested dictionary in
insertion order, with an explicit depth bound (the real catalog nests at
most four levels; fuel 10 is more than enough). -/
def valuesFuel : Nat → AlgoTree → List String
  | _, .url u => [u]
  | 0, .node _ => []
  | n + 1, .node d => (d.map (fun p => valuesFuel n p.2)).flatten

def getValues (t : AlgoTree) : List String := valuesFuel 10 t

/-- Common prefix of every catalog URL. -/
def ghRaw : String :=
  "https://raw.githubusercontent.com/tigergraph/gsql-graph-algorithms/master"

/-- `Featurizer.algo_dict`, the active (uncommented) catalog. -/
def algoDict : AlgoTree := .node [
  ("Centrality", .node [
    ("pagerank", .node [
      ("global", .node [
        ("weigthed", .url (ghRaw ++ "/algorithms/Centrality/pagerank/global/weighted/tg_pagerank_wt.gsql")),
        ("unweighted", .url (ghRaw ++ "/algorithms/Centrality/pagerank/global/unweighted/tg_pagerank.gsql"))])]),
    ("article_rank", .url (ghRaw ++ "/algorithms/Centrality/article_rank/tg_article_rank.gsql")),
    ("Betweenness", .url (ghRaw ++ "/algorithms/Centrality/betweenness/tg_betweenness_cent.gsql")),
    ("closeness", .node [
      ("approximate", .url (ghRaw ++ "/algorithms/Centrality/closeness/approximate/tg_closeness_cent_approx.gsql")),
      ("exact", .url (ghRaw ++ "/algorithms/Centrality/closeness/exact/tg_closeness_cent.gsql"))]),
    ("degree", .url (ghRaw ++ "/algorithms/Centrality/degree/tg_degree_cent.gsql")),
    ("eigenvector", .url (ghRaw ++ "/algorithms/Centrality/eigenvector/tg_eigenvector_cent.gsql")),
    ("harmonic", .url (ghRaw ++ "/algorithms/Centrality/harmonic/tg_harmonic_cent.gsql"))]),
  ("Classification", .node [
    ("maximal_independent_set", .node [
      ("deterministic", .url (ghRaw ++ "/algorithms/Classification/maximal_independent_set/deterministic/tg_maximal_indep_set.gsql"))])]),
  ("Community", .node [
    ("connected_components", .node [
      ("strongly_connected_components", .node [
        ("standard", .url (ghRaw ++ "/algorithms/Community/connected_components/strongly_connected_components/standard/tg_scc.gsql"))])]),
    ("k_core", .url (ghRaw ++ "/algorithms/Community/k_core/tg_kcore.gsql")),
    ("label_propagation", .url (ghRaw ++ "/algorithms/Community/label_propagation/tg_label_prop.gsql")),
    ("local_clustering_coefficient", .url (ghRaw ++ "/algorithms/Community/local_clustering_coefficient/tg_lcc.gsql")),
    ("louvain", .url (ghRaw ++ "/algorithms/Community/louvain/tg_louvain.gsql")),
    ("triangle_counting", .node [
      ("fast", .url (ghRaw ++ "/algorithms/Community/triangle_counting/fast/tg_tri_count_fast.gsql"))])]),
  ("Embeddings", .node [
    ("FastRP", .url (ghRaw ++ "/algorithms/GraphML/Embeddings/FastRP/tg_fastRP.gsql"))]),
  ("Path", .node [
    ("bfs", .url (ghRaw ++ "/algorithms/Path/bfs/tg_bfs.gsql")),
    ("cycle_detection", .node [
      ("count", .url (ghRaw ++ "/algorithms/Path/cycle_detection/count/tg_cycle_detection_count.gsql"))]),
    ("shortest_path", .node [
      ("unweighted", .url (ghRaw ++ "/algorithms/Path/shortest_path/unweighted/tg_shortest_ss_no_wt.gsql"))])]),
  ("Topological Link Prediction", .node [
    ("common_neighbors", .url (ghRaw ++ "/algorithms/Topological%20Link%20Prediction/common_neighbors/tg_common_neighbors.gsql")),
    ("preferential_attachment", .url (ghRaw ++ "/algorithms/Topological%20Link%20Prediction/preferential_attachment/tg_preferential_attachment.gsql")),
    ("same_community", .url (ghRaw ++ "/algorithms/Topological%20Link%20Prediction/same_community/tg_same_community.gsql")),
    ("total_neighbors", .url (ghRaw ++ "/algorithms/Topological%20Link%20Prediction/total_neighbors/tg_total_neighbors.gsql"))])]

/-- `list(self._get_values(self.algo_dict))`, the flattened URL list. -/
def algoList : List String := getValues algoDict

/-- `Featurizer.queryResult_type_dict`. -/
def queryResult_type_dict : PyDict String := [
  ("tg_pagerank", "Float"), ("tg_article_rank", "Float"),
  ("tg_betweenness_cent", "Float"), ("tg_closeness_cent", "Float"),
  ("tg_closeness_cent_approx", "Float"), ("tg_degree_cent", "INT"),
  ("tg_eigenvector_cent", "Float"), ("tg_harmonic_cent", "INT"),
  ("tg_pagerank_wt", "Float"), ("tg_scc", "INT"), ("tg_kcore", "INT"),
  ("tg_lcc", "Float"), ("tg_bfs", "INT"), ("tg_shortest_ss_no_wt", "INT"),
  ("tg_fastRP", "List<Double>"), ("tg_label_prop", "INT"),
  ("tg_louvain", "INT")]

end PyTG

namespace PyTG

/-! ## Resolver (`_get_query`, `_get_query_url`, `listAlgorithms`) -/

/-- `query_url.split('/')[-1][:-5]` — the routine name a URL stands for. -/
def queryNameOfUrl (u : String) : String :=
  pyDropRightN (pyLastD (pySplit u "/")) 5

/-- The loop condition `query_name == query_url.split('/')[-1][:-5]`. -/
def urlMatches (name : String) (u : String) : Bool :=
  decide (queryNameOfUrl u = name)

/-- The accumulation loop of `_get_query`: `query` is overwritten by the
fetched text of every matching URL, so the **last** match survives. -/
def getQueryLoop (fetch : String → String) (name : String) :
    List String → String → String
  | [], q => q
  | u :: rest, q =>
    getQueryLoop fetch name rest (if urlMatches name u then fetch u else q)

/-- The HTTP activity of `_get_query`: one GET per matching URL. -/
def getQueryEvents (algos : List String) (name : String) : List Event :=
  (algos.filter (urlMatches name)).map Event.httpGet

/-- `Featurizer._get_query`: download the named query's source; when the
final accumulator is still empty, print the catalog (`listAlgorithms`)
and raise `ValueError`. -/
def get_query (algos : List String) (fetch : String → String)
    (name : String) : Except Err String × List Event :=
  let q := getQueryLoop fetch name algos ""
  if q = "" then (.error .notFound, getQueryEvents algos name ++ [.listAlgorithms])
  else (.ok q, getQueryEvents algos name)

/-- The browsable-URL rewrite shared by `_get_query_url` and
`_print_dict`: `"https://github.com/..." + url.split('master')[1]`. -/
def browseUrl (u : String) : String :=
  "https://github.com/tigergraph/gsql-graph-algorithms/blob/master"
    ++ (pySplit u "master").getD 1 ""

/-- `Featurizer._get_query_url`: returns inside the loop at the **first**
matching URL; otherwise prints the catalog and raises `ValueError`. -/
def get_query_url (algos : List String) (name : String) :
    Except Err String × List Event :=
  match algos.find? (urlMatches name) with
  | some u => (.ok (browseUrl u), [])
  | none => (.error .notFound, [.listAlgorithms])

/-! ## Parameter inferencer (`_get_Params`) -/

/-- Handling of one comma-separated piece of the header.  `Except Unit`
is the exception that aborts the whole parsing loop; `ok none` means the
piece added nothing (unrecognized type tag). -/
def parsePiece (piece : String) : Except Unit (Option (String × PyVal)) :=
  if pyContains piece "=" then
    let lhs := (pySplit piece "=").headD ""
    let rhs := (pySplit piece "=").getD 1 ""
    match pySplitWs lhs with
    | t :: nm :: _ =>
      let tl := pyLower t
      if tl = "float" ∨ tl = "double" then
        if pyFloatOk rhs then .ok (some (nm, .vFloat (pyStrip rhs))) else .error ()
      else if tl = "bool" then .ok (some (nm, .vBool (decide (rhs ≠ ""))))
      else if tl = "int" then
        match pyIntOpt rhs with
        | some n => .ok (some (nm, .vInt n))
        | none => .error ()
      else if tl = "string" then
        match pySplitWs rhs with
        | tok :: _ => .ok (some (nm, .vStr (pySliceInt tok 1 (-2))))
        | [] => .error ()
      else .ok none
    | _ => .error ()
  else
    match pySplitWs piece with
    | _ :: nm :: _ => .ok (some (nm, .vNone))
    | _ => .error ()

/-- The `for i in range(len(list_params))` loop under `try`: an exception
stops the loop and the dictionary built so far is kept (the `except`
only prints a diagnostic). -/
def parsePieces : List String → ParamsDict → ParamsDict
  | [], d => d
  | p :: rest, d =>
    match parsePiece p with
    | .error _ => d
    | .ok none => parsePieces rest d
    | .ok (some (k, v)) => parsePieces rest (dictSet d k v)

/-- `query[query.find('(')+1:query.find(')')]`. -/
def paramHeader (query : String) : String :=
  pySliceInt query (pyFindChar query '(' + 1) (pyFindChar query ')')

/-- Default-parameter dictionary parsed from a query's source text. -/
def parseQueryParams (query : String) : ParamsDict :=
  parsePieces (pySplit (paramHeader query) ",") []

/-- `Featurizer._get_Params`: fetch the source (raising `NotFound` first
when the name is not in the catalog), parse the header, and always write
the result into the session cache `params_dict` — which is never read. -/
def get_Params (algos : List String) (fetch : String → String)
    (st : FeatState) (name : String) :
    Except Err ParamsDict × FeatState × List Event :=
  match get_query algos fetch name with
  | (.error e, ev) => (.error e, st, ev)
  | (.ok q, ev) =>
    -- dead re-check from the source (`_get_query` already raised on ""):
    if q = "" then (.error .notFound, st, ev ++ [.listAlgorithms])
    else
      let d := parseQueryParams q
      (.ok d, ⟨dictSet st.params_dict name d⟩, ev)

/-! ## Installer (`_is_query_installed`, `_install_query_file`) -/

/-- `_is_query_installed`: membership of the composed endpoint string in
the `getInstalledQueries()` listing. -/
def isInstalledCheck (c : Conn) (name : String) : Bool :=
  decide (("GET /query/" ++ c.graphname ++ "/" ++ name) ∈ c.installed)

/-- The `{QUERYSUFFIX}` rewrite applied to the query name before any
other step of `_install_query_file`. -/
def rewrittenName (repl : Option (PyDict String)) (name : String) : String :=
  match repl with
  | some r =>
    match dictGet r "{QUERYSUFFIX}" with
    | some suf => pyReplace name "{QUERYSUFFIX}" suf
    | none => name
  | none => name

/-- `for placeholder in replace: query = query.replace(...)`. -/
def applyReplaces (repl : Option (PyDict String)) (s : String) : String :=
  match repl with
  | none => s
  | some l => l.foldl (fun acc p => pyReplace acc p.1 p.2) s

/-- `Featurizer._install_query_file`. -/
def install_query_file (algos : List String) (fetch : String → String)
    (c : Conn) (name : String) (repl : Option (PyDict String)) :
    Except Err String × List Event :=
  let qname := rewrittenName repl name
  if isInstalledCheck c (pyStrip qname) then
    (.ok qname, [.getInstalledQueries])
  else
    match get_query algos fetch qname with
    | (.error e, ev) => (.error e, Event.getInstalledQueries :: ev)
    | (.ok q0, ev) =>
      let q1 := applyReplaces repl q0
      let cmd := "USE GRAPH " ++ c.graphname ++ "\n" ++ q1
        ++ "\ninstall Query " ++ qname ++ "\n"
      let status := lastLine (c.gsqlResp cmd)
      if pyContains status "Failed" then
        (.error (.connectionError status),
          Event.getInstalledQueries :: (ev ++ [Event.gsql cmd]))
      else
        (.ok qname, Event.getInstalledQueries :: (ev ++ [Event.gsql cmd]))

/-- `Featurizer.installAlgorithm` (no substitutions; strips the result). -/
def installAlgorithm (algos : List String) (fetch : String → String)
    (c : Conn) (name : String) : Except Err String × List Event :=
  match install_query_file algos fetch c name none with
  | (.ok r, ev) => (.ok (pyStrip r), ev)
  | (.error e, ev) => (.error e, ev)

end PyTG

namespace PyTG

/-! ## Schema mutator (`_add_attribute`) -/

/-- Metadata lookup for one loop target: a real type name goes through
the connection's per-name table; the list object appended by
`target.append(schema_name)` can never equal a schema entry's `Name`
string, so its lookup fails (`getEdgeType` then returns `{}` and the
`['Attributes']` access raises — modelled as `none`). -/
def targetMeta (attrs : String → Option (List String)) :
    SchemaTarget → Option (List String)
  | .tname s => attrs s
  | .tlist _ => none

/-- The `for t in target` loop of `_add_attribute`: per target, one
metadata fetch, then queue an ALTER statement when the attribute is
absent.  A failed metadata access aborts with an exception. -/
def attrLoop (attrs : String → Option (List String))
    (schema_type attr_type : String) (attr_name : Option String) :
    List SchemaTarget → List String → List Event →
    Except Err (List String) × List Event
  | [], tasks, evs => (.ok tasks, evs)
  | t :: rest, tasks, evs =>
    match targetMeta attrs t with
    | none => (.error .metaError, evs ++ [Event.getTypeMeta t])
    | some names =>
      let tasks' := match attr_name with
        | some a =>
          if a ∈ names then tasks
          else tasks ++ ["ALTER " ++ schema_type ++ " " ++ targetStr t
            ++ " ADD ATTRIBUTE (" ++ a ++ " " ++ attr_type ++ ");\n"]
        | none => tasks
      attrLoop attrs schema_type attr_type attr_name rest tasks'
        (evs ++ [Event.getTypeMeta t])

/-- Body of `_add_attribute` once the vertex/edge branch is chosen:
`ev0` is the `getVertexTypes`/`getEdgeTypes` call, `types` its result,
`attrs` the matching metadata table. -/
def addAttrCore (g : String) (attrs : String → Option (List String))
    (types : List String) (ev0 : Event) (schema_type attr_type : String)
    (attr_name : Option String) (schema_name : Option (List String))
    (gsqlResp : String → String) (rnd : String) :
    Except Err String × List Event :=
  let targets : List SchemaTarget := match schema_name with
    | some l => [SchemaTarget.tlist l]
    | none => types.map SchemaTarget.tname
  match attrLoop attrs schema_type attr_type attr_name targets [] [] with
  | (.error e, evs) => (.error e, ev0 :: evs)
  | (.ok tasks, evs) =>
    if tasks = [] then (.ok "Attribute already exists", ev0 :: evs)
    else
      let jobName := "add_" ++ schema_type ++ "_attr_" ++ rnd
      let job := "USE GRAPH " ++ g ++ "\nCREATE GLOBAL SCHEMA_CHANGE JOB "
        ++ jobName ++ " \x7b\n" ++ strJoin tasks
        ++ "\x7d\nRUN GLOBAL SCHEMA_CHANGE JOB " ++ jobName
      let status := lastLine (gsqlResp job)
      if pyContains status "Failed" then
        (.error (.connectionError status), ev0 :: (evs ++ [Event.gsql job]))
      else
        (.ok "Global schema change succeeded.", ev0 :: (evs ++ [Event.gsql job]))

/-- `Featurizer._add_attribute`. -/
def add_attribute (c : Conn) (schema_type attr_type : String)
    (attr_name : Option String) (schema_name : Option (List String)) :
    Except Err String × List Event :=
  if pyUpper schema_type = "VERTEX" then
    addAttrCore c.graphname c.vertexAttrs c.vertexTypes Event.getVertexTypes
      schema_type attr_type attr_name schema_name c.gsqlResp c.randSuffix
  else if pyUpper schema_type = "EDGE" then
    addAttrCore c.graphname c.edgeAttrs c.edgeTypes Event.getEdgeTypes
      schema_type attr_type attr_name schema_name c.gsqlResp c.randSuffix
  else (.error .schemaTypeError, [])

/-! ## Runner (`runAlgorithm`) -/

/-- `Featurizer.runAlgorithm`.  The `timeout`/`sizeLimit` arguments are
passed through to `runInstalledQuery` unmodified by the source and are
not modelled.  Note the `params == None` branch: with a non-empty,
fully-defaulted parameter dictionary neither sub-branch executes
anything — the function falls through and returns `None`. -/
def runAlgorithm (algos : List String) (fetch : String → String)
    (c : Conn) (st : FeatState) (name : String) (params : Option ParamsDict)
    (schema_type : String) (feat_name : Option String)
    (schema_name : Option (List String)) :
    Except Err (Option String) × FeatState × List Event :=
  match params with
  | none =>
    match get_Params algos fetch st name with
    | (.error e, st', ev) => (.error e, st', ev)
    | (.ok d, st', ev) =>
      if d ≠ [] then
        if PyVal.vNone ∈ d.map Prod.snd then
          match get_query_url algos name with
          | (.ok url, ev2) => (.error (.validationError url), st', ev ++ ev2)
          | (.error e, ev2) => (.error e, st', ev ++ ev2)
        else
          (.ok none, st', ev)
      else
        (.ok (c.runResult name none), st',
          ev ++ [Event.runInstalledQuery name none])
  | some p =>
    match get_Params algos fetch st name with
    | (.error e, st', ev) => (.error e, st', ev)
    | (.ok dflt, st', ev) =>
      match feat_name with
      | some f =>
        if "result_attr" ∈ dflt.map Prod.fst then
          let p' := dictSet p "result_attr" (.vStr f)
          match dictGet queryResult_type_dict name with
          | none => (.error (.keyError name), st', ev)
          | some ty =>
            match add_attribute c schema_type ty (some f) schema_name with
            | (.error e, ev2) => (.error e, st', ev ++ ev2)
            | (.ok _, ev2) =>
              (.ok (c.runResult name (some p')), st',
                ev ++ ev2 ++ [Event.runInstalledQuery name (some p')])
        else
          match get_query_url algos name with
          | (.ok url, ev2) => (.error (.validationError url), st', ev ++ ev2)
          | (.error e, ev2) => (.error e, st', ev ++ ev2)
      | none =>
        (.ok (c.runResult name (some p)), st',
          ev ++ [Event.runInstalledQuery name (some p)])

end PyTG

namespace PyTG

/-! ## Concrete instances used by the witnesses and counterexamples -/

/-- The catalog URL of `tg_bfs`. -/
def tgBfsUrl : String := ghRaw ++ "/algorithms/Path/bfs/tg_bfs.gsql"

/-- The browsable reference URL of `tg_bfs`. -/
def tgBfsRefUrl : String :=
  "https://github.com/tigergraph/gsql-graph-algorithms/blob/master/algorithms/Path/bfs/tg_bfs.gsql"

/-- A `tg_bfs` source header whose single parameter has a default. -/
def hdrDefaulted : String := "CREATE QUERY tg_bfs(INT k = 5) FOR GRAPH g SELECT 1"

/-- Remote-fetch stub returning `hdrDefaulted` for every URL. -/
def fetchDefaulted : String → String := fun _ => hdrDefaulted

/-- A `tg_bfs` source header whose single parameter has no default. -/
def hdrNoDefault : String := "CREATE QUERY tg_bfs(STRING v_type) FOR GRAPH g SELECT 1"

/-- Remote-fetch stub returning `hdrNoDefault` for every URL. -/
def fetchNoDefault : String → String := fun _ => hdrNoDefault

/-- The parameter list from the claim about `inferDefaults`. -/
def hdrC4 : String := "CREATE QUERY q(INT k = 5, STRING label = \"x\") FOR GRAPH g SELECT 1"

/-- Variant with a two-character string literal. -/
def hdrC4b : String := "CREATE QUERY q(STRING label = \"xy\") FOR GRAPH g SELECT 1"

/-- A connection with nothing installed and an empty schema. -/
def connBase : Conn where
  graphname := "g"
  installed := []
  gsqlResp := fun _ => "ok\nSuccess"
  vertexTypes := []
  edgeTypes := []
  vertexAttrs := fun _ => none
  edgeAttrs := fun _ => none
  runResult := fun _ _ => none
  randSuffix := "abcdef"

/-- The same server after `tg_bfs` has been installed. -/
def connInstalled : Conn := { connBase with installed := ["GET /query/g/tg_bfs"] }

/-- A connection with three vertex types, each carrying only a `name`
attribute. -/
def connSchema : Conn := { connBase with
  vertexTypes := ["Person", "Company", "City"]
  vertexAttrs := fun s =>
    if s = "Person" ∨ s = "Company" ∨ s = "City" then some ["name"] else none }

/-- The events of the first (installing) `install_query_file` call in the
idempotence witness. -/
def installCmd0 : String := "USE GRAPH g\n" ++ hdrDefaulted ++ "\ninstall Query tg_bfs\n"

def installTrace0 : List Event :=
  [.getInstalledQueries, .httpGet tgBfsUrl, .gsql installCmd0]

/-- A two-entry catalog in which two categories define the same leaf
name `tg_dup`. -/
def dupUrl1 : String := "https://raw.example.com/master/one/tg_dup.gsql"

def dupUrl2 : String := "https://raw.example.com/master/two/tg_dup.gsql"

def dupCatalog : List String := [dupUrl1, dupUrl2]

/-- Fetch stub whose text identifies the URL it came from. -/
def dupFetch : String → String := fun u => "SRC " ++ u

/-- The leaf routine names of the repository catalog. -/
def catalogLeafNames : List String := algoList.map queryNameOfUrl

end PyTG

namespace PyTG

/-! ## Helper lemmas -/

theorem countEv_nil (p : Event → Bool) : countEv p [] = 0 := rfl

theorem countEv_cons (p : Event → Bool) (e : Event) (l : List Event) :
    countEv p (e :: l) = countEv p l + (if p e then 1 else 0) := by
  simp [countEv, List.countP_cons]

theorem countEv_append (p : Event → Bool) (l₁ l₂ : List Event) :
    countEv p (l₁ ++ l₂) = countEv p l₁ + countEv p l₂ := by
  simp [countEv]

/-- HTTP GET events contribute nothing to a count whose predicate
rejects them. -/
theorem countEv_map_httpGet (p : Event → Bool)
    (h : ∀ u, p (Event.httpGet u) = false) (l : List String) :
    countEv p (l.map Event.httpGet) = 0 := by
  simp only [countEv, List.countP_map]
  exact List.countP_eq_zero.mpr (fun u _ => by simp [Function.comp, h u])

/-- Metadata events contribute nothing to a count whose predicate
rejects them. -/
theorem countEv_map_typeMeta (p : Event → Bool)
    (h : ∀ t, p (Event.getTypeMeta t) = false) (l : List SchemaTarget) :
    countEv p (l.map Event.getTypeMeta) = 0 := by
  simp only [countEv, List.countP_map]
  exact List.countP_eq_zero.mpr (fun t _ => by simp [Function.comp, h t])

/-- When no URL matches, the `_get_query` accumulator is untouched. -/
theorem getQueryLoop_no_match (fetch : String → String) (name : String) :
    ∀ (l : List String) (q : String),
      (∀ u ∈ l, urlMatches name u = false) → getQueryLoop fetch name l q = q := by
  intro l
  induction l with
  | nil => intro q _; rfl
  | cons a rest ih =>
    intro q h
    have ha := h a (by simp)
    simp only [getQueryLoop, ha, Bool.false_eq_true, if_false]
    exact ih q (fun u hu => h u (by simp [hu]))

/-- When exactly one URL matches, the `_get_query` accumulator ends as
that URL's fetched text. -/
theorem getQueryLoop_single (fetch : String → String) (name : String) :
    ∀ (l : List String) (u : String) (q : String),
      l.filter (urlMatches name) = [u] → getQueryLoop fetch name l q = fetch u := by
  intro l
  induction l with
  | nil => intro u q h; simp at h
  | cons a rest ih =>
    intro u q h
    rw [List.filter_cons] at h
    by_cases ha : urlMatches name a = true
    · rw [if_pos ha] at h
      obtain ⟨hau, hrest⟩ := List.cons_eq_cons.mp h
      subst hau
      have hnm : ∀ v ∈ rest, urlMatches name v = false := by
        intro v hv
        simpa using List.filter_eq_nil_iff.mp hrest v hv
      simp only [getQueryLoop, ha, if_true]
      exact getQueryLoop_no_match fetch name rest (fetch a) hnm
    · rw [if_neg ha] at h
      simp only [getQueryLoop, ha, Bool.false_eq_true, if_false]
      exact ih u q h

/-- A singleton filter pins down `find?`. -/
theorem find_of_filter_singleton {α : Type} (p : α → Bool) :
    ∀ (l : List α) (u : α), l.filter p = [u] → l.find? p = some u := by
  intro l
  induction l with
  | nil => intro u h; simp at h
  | cons a rest ih =>
    intro u h
    rw [List.filter_cons] at h
    by_cases ha : p a = true
    · rw [if_pos ha] at h
      obtain ⟨hau, -⟩ := List.cons_eq_cons.mp h
      subst hau
      exact List.find?_cons_of_pos _ ha
    · rw [if_neg ha] at h
      rw [List.find?_cons_of_neg _ (by simp [ha])]
      exact ih u h

/-- Successful `_get_query` output: nonempty text, trace = one GET per
matching URL. -/
theorem get_query_ok_elim {algos : List String} {fetch : String → String}
    {name q : String} {ev : List Event}
    (h : get_query algos fetch name = (.ok q, ev)) :
    q ≠ "" ∧ ev = getQueryEvents algos name
      ∧ getQueryLoop fetch name algos "" = q := by
  unfold get_query at h
  by_cases hz : getQueryLoop fetch name algos "" = ""
  · rw [if_pos hz] at h
    exact absurd (Prod.ext_iff.mp h).1 (by simp)
  · rw [if_neg hz] at h
    obtain ⟨h1, h2⟩ := Prod.ext_iff.mp h
    simp only at h1 h2
    injection h1 with h1
    exact ⟨h1 ▸ hz, h2.symm, h1⟩

/-- Successful `_get_Params` output: the cache gains exactly the parsed
dictionary and the trace is `_get_query`'s. -/
theorem get_Params_ok_elim {algos : List String} {fetch : String → String}
    {st st' : FeatState} {name : String} {d : ParamsDict} {ev : List Event}
    (h : get_Params algos fetch st name = (.ok d, st', ev)) :
    st' = ⟨dictSet st.params_dict name d⟩ ∧ ev = getQueryEvents algos name
      ∧ ∃ q, get_query algos fetch name = (.ok q, ev) ∧ d = parseQueryParams q := by
  unfold get_Params at h
  rcases hq : get_query algos fetch name with ⟨r, ev0⟩
  rw [hq] at h
  cases r with
  | error e => simp at h
  | ok q =>
    obtain ⟨hne, hev0, -⟩ := get_query_ok_elim hq
    simp only at h
    rw [if_neg hne] at h
    obtain ⟨h1, h23⟩ := Prod.ext_iff.mp h
    obtain ⟨h2, h3⟩ := Prod.ext_iff.mp h23
    simp only at h1 h2 h3
    injection h1 with h1
    exact ⟨h2.symm.trans (by rw [h1]), h3 ▸ hev0, q, by rw [h3], h1.symm⟩

end PyTG

set_option maxRecDepth 400000

namespace PyTG

/-! ## Claim theorems -/

/-- C1: the claim says that with no explicit parameters and a non-empty,
fully-defaulted inferred mapping, `runAlgorithm` invokes
`conn.runInstalledQuery` with the defaults and returns its result.  The
code does not: after the `None in params.values()` check succeeds, the
`params == None` branch has no further statement, so the call falls
through, performs no execution round trip, and returns `None`.  This
theorem evaluates the model at the failing input (`tg_bfs` with source
header `(INT k = 5)`): the inferred defaults are the non-empty,
`None`-free `{k: 5}`, yet the result is `None` and the trace holds only
the source fetch — no `runInstalledQuery` event. -/
theorem claim_C1_complete_defaults_skip_execution :
    runAlgorithm algoList fetchDefaulted connBase ⟨[]⟩ "tg_bfs" none
        "VERTEX" none none
      = (.ok none, ⟨[("tg_bfs", [("k", PyVal.vInt 5)])]⟩, [Event.httpGet tgBfsUrl])
    ∧ parseQueryParams (fetchDefaulted tgBfsUrl) = [("k", PyVal.vInt 5)]
    ∧ PyVal.vNone ∉ ([("k", PyVal.vInt 5)] : ParamsDict).map Prod.snd
    ∧ countEv Event.isRunInstalled [Event.httpGet tgBfsUrl] = 0 :=
  ⟨rfl, rfl, by decide, rfl⟩

end PyTG

namespace PyTG

/-- C3 counterexample: `tg_maximal_indep_set` is a leaf of the nested
algorithm dictionary, but it is not a key of `queryResult_type_dict`,
so not every catalog leaf has a declared result type. -/
theorem claim_C3_counterexample :
    "tg_maximal_indep_set" ∈ catalogLeafNames
    ∧ dictGet queryResult_type_dict "tg_maximal_indep_set" = none := by
  exact ⟨by decide, rfl⟩

/-- C3 amended: the inclusion holds in the opposite direction — every
key of `queryResult_type_dict` is a catalog leaf name and its type is
drawn from the enumeration Float / INT / List of Double; seven catalog
leaves (for example `tg_maximal_indep_set`) have no declared type. -/
theorem claim_C3_type_table_subset_of_catalog :
    ∀ p ∈ queryResult_type_dict,
      p.1 ∈ catalogLeafNames
      ∧ (p.2 = "Float" ∨ p.2 = "INT" ∨ p.2 = "List<Double>") := by
  decide

/-- C3 witness: the theorem applied at the `tg_pagerank` entry. -/
theorem claim_C3_type_table_subset_of_catalog_witness :
    ("tg_pagerank", "Float").1 ∈ catalogLeafNames
    ∧ (("tg_pagerank", "Float").2 = "Float"
      ∨ ("tg_pagerank", "Float").2 = "INT"
      ∨ ("tg_pagerank", "Float").2 = "List<Double>") :=
  claim_C3_type_table_subset_of_catalog ("tg_pagerank", "Float") (by decide)

/-- C4 counterexample: on the header `(INT k = 5, STRING label = "x")`
the parser binds `label` to the empty string, not to `x` as the claim
states (the `[1:-2]` trim eats the closing quote and the final content
character). -/
theorem claim_C4_counterexample :
    dictGet (parseQueryParams hdrC4) "k" = some (PyVal.vInt 5)
    ∧ dictGet (parseQueryParams hdrC4) "label" = some (PyVal.vStr "")
    ∧ dictGet (parseQueryParams hdrC4) "label" ≠ some (PyVal.vStr "x") :=
  ⟨rfl, rfl, by decide⟩

/-- C4 amended: the parsing yields `{k: 5, label: ""}` — the integer
literal is coerced to 5, while a string literal loses its opening quote
plus its last two characters, so the one-character literal `"x"`
collapses to the empty string (and `"xy"` to `x`). -/
theorem claim_C4_param_parsing_amended :
    parseQueryParams hdrC4 = [("k", PyVal.vInt 5), ("label", PyVal.vStr "")]
    ∧ parseQueryParams hdrC4b = [("label", PyVal.vStr "x")] :=
  ⟨rfl, rfl⟩

/-- C7: the claim says a caller-supplied entity-type list is enumerated
name by name.  The code instead runs `target.clear();
target.append(schema_name)`, making the whole list a single loop
element: at the failing input `schema_name = ["Person", "Company"]`
(with attribute `score` absent on both types) the model performs exactly
one metadata fetch — for the list object itself, whose schema lookup
fails — and aborts; it never fetches `Person` or `Company` and queues no
ALTER statement. -/
theorem claim_C7_schema_subset_single_bogus_target :
    add_attribute connSchema "VERTEX" "INT" (some "score") (some ["Person", "Company"])
      = (.error .metaError,
        [Event.getVertexTypes, Event.getTypeMeta (.tlist ["Person", "Company"])])
    ∧ Event.getTypeMeta (.tname "Person")
        ∉ [Event.getVertexTypes, Event.getTypeMeta (.tlist ["Person", "Company"])]
    ∧ Event.getTypeMeta (.tname "Company")
        ∉ [Event.getVertexTypes, Event.getTypeMeta (.tlist ["Person", "Company"])]
    ∧ countEv Event.isGsql
        [Event.getVertexTypes, Event.getTypeMeta (.tlist ["Person", "Company"])] = 0 :=
  ⟨rfl, by decide, by decide, rfl⟩

/-- C8 counterexample: in a catalog where two categories define the leaf
name `tg_dup`, `_get_query` downloads the text of the **last** matching
entry while `_get_query_url` returns the reference location of the
**first**, so the two do not select the same entry. -/
theorem claim_C8_counterexample :
    get_query dupCatalog dupFetch "tg_dup"
      = (.ok (dupFetch dupUrl2), [Event.httpGet dupUrl1, Event.httpGet dupUrl2])
    ∧ get_query_url dupCatalog "tg_dup" = (.ok (browseUrl dupUrl1), [])
    ∧ browseUrl dupUrl1 ≠ browseUrl dupUrl2 :=
  ⟨rfl, rfl, by decide⟩

/-- C9 counterexample: after a first `_get_Params` call on `tg_bfs` the
cache does hold the inferred mapping, but a second call still performs
the HTTP fetch of the remote source (the cache is never consulted),
contradicting the claim's "reuses the cached mapping rather than
fetching and re-parsing the remote source again". -/
theorem claim_C9_counterexample :
    (get_Params algoList fetchDefaulted ⟨[]⟩ "tg_bfs").2.1
      = ⟨[("tg_bfs", [("k", PyVal.vInt 5)])]⟩
    ∧ (get_Params algoList fetchDefaulted
        ⟨[("tg_bfs", [("k", PyVal.vInt 5)])]⟩ "tg_bfs").2.2
      = [Event.httpGet tgBfsUrl]
    ∧ ([Event.httpGet tgBfsUrl] : List Event) ≠ [] :=
  ⟨rfl, rfl, by decide⟩

end PyTG

namespace PyTG

/-- C10: for a routine name matching no leaf of the catalog, both
`_get_query` and `_get_query_url` print the full catalog listing
(`listAlgorithms`, recorded in the trace before the raise) and fail
with the NotFound `ValueError`. -/
theorem claim_C10_notfound_with_listing (fetch : String → String) (name : String)
    (h : ∀ u ∈ algoList, urlMatches name u = false) :
    get_query algoList fetch name = (.error .notFound, [Event.listAlgorithms])
    ∧ get_query_url algoList name = (.error .notFound, [Event.listAlgorithms]) := by
  constructor
  · unfold get_query
    rw [getQueryLoop_no_match fetch name algoList "" h, if_pos rfl]
    have hfil : algoList.filter (urlMatches name) = [] :=
      List.filter_eq_nil_iff.mpr (fun u hu => by simp [h u hu])
    simp [getQueryEvents, hfil]
  · unfold get_query_url
    rw [List.find?_eq_none.mpr (fun u hu => by simp [h u hu])]

/-- C10 witness: the theorem applied to the absent name `tg_fake`. -/
theorem claim_C10_notfound_with_listing_witness :
    get_query algoList fetchDefaulted "tg_fake"
      = (.error .notFound, [Event.listAlgorithms])
    ∧ get_query_url algoList "tg_fake" = (.error .notFound, [Event.listAlgorithms]) :=
  claim_C10_notfound_with_listing fetchDefaulted "tg_fake" (by decide)

/-- C8 amended: `_get_query` resolves to the text of the entry the
traversal visits last and `_get_query_url` to the location of the entry
visited first, so the two agree whenever the name matches exactly one
catalog entry (as in the repository catalog, whose leaf names are
distinct) — but not in general, see the counterexample. -/
theorem claim_C8_unique_match_agreement (algos : List String)
    (fetch : String → String) (name u : String)
    (hf : algos.filter (urlMatches name) = [u]) (hnz : fetch u ≠ "") :
    get_query algos fetch name = (.ok (fetch u), [Event.httpGet u])
    ∧ get_query_url algos name = (.ok (browseUrl u), []) := by
  constructor
  · unfold get_query
    rw [getQueryLoop_single fetch name algos u "" hf, if_neg hnz]
    simp [getQueryEvents, hf]
  · unfold get_query_url
    rw [find_of_filter_singleton (urlMatches name) algos u hf]

/-- C8 witness: the amended theorem applied to `tg_bfs` in the real
catalog, where the name matches exactly one entry. -/
theorem claim_C8_unique_match_agreement_witness :
    get_query algoList fetchDefaulted "tg_bfs"
      = (.ok (fetchDefaulted tgBfsUrl), [Event.httpGet tgBfsUrl])
    ∧ get_query_url algoList "tg_bfs" = (.ok (browseUrl tgBfsUrl), []) :=
  claim_C8_unique_match_agreement algoList fetchDefaulted "tg_bfs" tgBfsUrl
    (by decide) (by decide)

end PyTG

namespace PyTG

/-- C9 amended: after a successful `_get_Params` call the session cache
does map the routine name to the inferred mapping, but the cache is
write-only: a later call for the same name returns the same mapping by
performing exactly the same remote fetch trace again, not by reading the
cache. -/
theorem claim_C9_cache_write_only (algos : List String) (fetch : String → String)
    (st : FeatState) (name : String) (d : ParamsDict) (st' : FeatState)
    (ev : List Event)
    (h : get_Params algos fetch st name = (.ok d, st', ev)) :
    st'.params_dict = dictSet st.params_dict name d
    ∧ get_Params algos fetch st' name
      = (.ok d, ⟨dictSet st'.params_dict name d⟩, ev) := by
  obtain ⟨hst, hev, q, hq, hd⟩ := get_Params_ok_elim h
  obtain ⟨hqne, -, -⟩ := get_query_ok_elim hq
  constructor
  · rw [hst]
  · subst hd
    simp only [get_Params, hq]
    rw [if_neg hqne]

/-- C9 witness: the amended theorem applied to the first `tg_bfs` call. -/
theorem claim_C9_cache_write_only_witness :
    (⟨[("tg_bfs", [("k", PyVal.vInt 5)])]⟩ : FeatState).params_dict
      = dictSet (⟨[]⟩ : FeatState).params_dict "tg_bfs" [("k", PyVal.vInt 5)]
    ∧ get_Params algoList fetchDefaulted ⟨[("tg_bfs", [("k", PyVal.vInt 5)])]⟩ "tg_bfs"
      = (.ok [("k", PyVal.vInt 5)],
        ⟨dictSet (⟨[("tg_bfs", [("k", PyVal.vInt 5)])]⟩ : FeatState).params_dict
          "tg_bfs" [("k", PyVal.vInt 5)]⟩,
        [Event.httpGet tgBfsUrl]) :=
  claim_C9_cache_write_only algoList fetchDefaulted ⟨[]⟩ "tg_bfs"
    [("k", PyVal.vInt 5)] ⟨[("tg_bfs", [("k", PyVal.vInt 5)])]⟩
    [Event.httpGet tgBfsUrl] rfl

/-- C5: with no explicit parameters, when the inferred mapping is
non-empty and some parameter has no default (`vNone`), `runAlgorithm`
raises the `ValueError` carrying the routine's reference URL, and the
trace contains no `runInstalledQuery` event — no remote execution call
is made before the raise. -/
theorem claim_C5_missing_default_validation_error
    (algos : List String) (fetch : String → String) (c : Conn) (st : FeatState)
    (name : String) (d : ParamsDict) (st' : FeatState) (ev : List Event)
    (url : String) (schema_type : String) (feat_name : Option String)
    (schema_name : Option (List String))
    (hp : get_Params algos fetch st name = (.ok d, st', ev))
    (hne : d ≠ [])
    (hnone : PyVal.vNone ∈ d.map Prod.snd)
    (hurl : get_query_url algos name = (.ok url, [])) :
    runAlgorithm algos fetch c st name none schema_type feat_name schema_name
      = (.error (.validationError url), st', ev)
    ∧ countEv Event.isRunInstalled ev = 0 := by
  obtain ⟨-, hev, -⟩ := get_Params_ok_elim hp
  constructor
  · simp only [runAlgorithm, hp]
    rw [if_pos hne, if_pos hnone]
    simp only [hurl]
    simp
  · rw [hev]
    exact countEv_map_httpGet _ (fun u => rfl) _

/-- C5 witness: running `tg_bfs` whose single parameter `v_type` has no
default. -/
theorem claim_C5_missing_default_validation_error_witness :
    runAlgorithm algoList fetchNoDefault connBase ⟨[]⟩ "tg_bfs" none
        "VERTEX" none none
      = (.error (.validationError tgBfsRefUrl),
        ⟨[("tg_bfs", [("v_type", PyVal.vNone)])]⟩, [Event.httpGet tgBfsUrl])
    ∧ countEv Event.isRunInstalled [Event.httpGet tgBfsUrl] = 0 :=
  claim_C5_missing_default_validation_error algoList fetchNoDefault connBase
    ⟨[]⟩ "tg_bfs" [("v_type", PyVal.vNone)]
    ⟨[("tg_bfs", [("v_type", PyVal.vNone)])]⟩ [Event.httpGet tgBfsUrl]
    tgBfsRefUrl "VERTEX" none none rfl (by decide) (by decide) rfl

end PyTG

namespace PyTG

/-- C2: installing is idempotent.  If the first call finds the
(possibly suffix-rewritten) name not yet installed and succeeds, its
trace contains exactly one `gsql` install submission; a second call
against a server whose listing now contains the name returns that name
immediately after the single `getInstalledQueries` check — no source
fetch, no install command — so the two calls together perform exactly
one remote installation round trip. -/
theorem claim_C2_install_idempotent (algos : List String)
    (fetch : String → String) (c₁ c₂ : Conn) (name : String)
    (repl : Option (PyDict String)) (r : String) (ev₁ : List Event)
    (h0 : install_query_file algos fetch c₁ name repl = (.ok r, ev₁))
    (h1 : isInstalledCheck c₁ (pyStrip (rewrittenName repl name)) = false)
    (h2 : isInstalledCheck c₂ (pyStrip r) = true) :
    install_query_file algos fetch c₂ name repl
      = (.ok r, [Event.getInstalledQueries])
    ∧ countEv Event.isGsql ev₁ = 1
    ∧ countEv Event.isHttpGet [Event.getInstalledQueries] = 0
    ∧ countEv Event.isGsql (ev₁ ++ [Event.getInstalledQueries]) = 1 := by
  unfold install_query_file at h0
  simp only [h1, Bool.false_eq_true, if_false] at h0
  rcases hq : get_query algos fetch (rewrittenName repl name) with ⟨r0, ev0⟩
  rw [hq] at h0
  cases r0 with
  | error e => simp at h0
  | ok q0 =>
    obtain ⟨-, hev0, -⟩ := get_query_ok_elim hq
    simp only at h0
    by_cases hf : pyContains (lastLine (c₁.gsqlResp ("USE GRAPH " ++ c₁.graphname
        ++ "\n" ++ applyReplaces repl q0 ++ "\ninstall Query "
        ++ rewrittenName repl name ++ "\n"))) "Failed" = true
    · rw [if_pos hf] at h0
      exact absurd (Prod.ext_iff.mp h0).1 (by simp)
    · rw [if_neg hf] at h0
      obtain ⟨ha, hb⟩ := Prod.ext_iff.mp h0
      simp only at ha hb
      injection ha with ha
      have hcount : countEv Event.isGsql ev₁ = 1 := by
        rw [← hb, countEv_cons, countEv_append, hev0]
        simp only [getQueryEvents]
        rw [countEv_map_httpGet Event.isGsql (fun u => rfl)]
        rfl
      refine ⟨?_, hcount, rfl, by rw [countEv_append, hcount]; rfl⟩
      unfold install_query_file
      simp only [ha, h2, if_true]

/-- C2 witness: `tg_bfs` installed on an empty server, then again after
the listing contains it. -/
theorem claim_C2_install_idempotent_witness :
    install_query_file algoList fetchDefaulted connInstalled "tg_bfs" none
      = (.ok "tg_bfs", [Event.getInstalledQueries])
    ∧ countEv Event.isGsql installTrace0 = 1
    ∧ countEv Event.isHttpGet [Event.getInstalledQueries] = 0
    ∧ countEv Event.isGsql (installTrace0 ++ [Event.getInstalledQueries]) = 1 :=
  claim_C2_install_idempotent algoList fetchDefaulted connBase connInstalled
    "tg_bfs" none "tg_bfs" installTrace0 rfl rfl rfl

end PyTG

namespace PyTG

/-- Metadata events for plain type names contribute nothing to a count
whose predicate rejects metadata events. -/
theorem countEv_map_tnameMeta (p : Event → Bool)
    (h : ∀ t, p (Event.getTypeMeta t) = false) (l : List String) :
    countEv p (l.map (fun s => Event.getTypeMeta (.tname s))) = 0 := by
  simp only [countEv, List.countP_map]
  exact List.countP_eq_zero.mpr (fun t _ => by simp [Function.comp, h])

/-- When the attribute is present on every named target, the
`_add_attribute` loop queues nothing and only fetches metadata. -/
theorem attrLoop_all_present (attrs : String → Option (List String))
    (schema_type attr_type a : String) :
    ∀ (ss : List String) (tasks : List String) (evs : List Event),
      (∀ s ∈ ss, ∃ l, attrs s = some l ∧ a ∈ l) →
      attrLoop attrs schema_type attr_type (some a) (ss.map SchemaTarget.tname)
          tasks evs
        = (.ok tasks, evs ++ ss.map (fun s => Event.getTypeMeta (.tname s))) := by
  intro ss
  induction ss with
  | nil => intro tasks evs _; simp [attrLoop]
  | cons s rest ih =>
    intro tasks evs h
    obtain ⟨l, hl, ha⟩ := h s (by simp)
    simp only [List.map_cons, attrLoop, targetMeta, hl, if_pos ha]
    rw [ih tasks (evs ++ [Event.getTypeMeta (.tname s)])
      (fun v hv => h v (by simp [hv]))]
    simp

/-- Core of C6 for one entity kind. -/
theorem addAttrCore_all_present (g : String)
    (attrs : String → Option (List String)) (types : List String) (ev0 : Event)
    (schema_type attr_type a : String) (gsqlR : String → String) (rnd : String)
    (h : ∀ s ∈ types, ∃ l, attrs s = some l ∧ a ∈ l) :
    addAttrCore g attrs types ev0 schema_type attr_type (some a) none gsqlR rnd
      = (.ok "Attribute already exists",
        ev0 :: types.map (fun s => Event.getTypeMeta (.tname s))) := by
  have hl := attrLoop_all_present attrs schema_type attr_type a types [] [] h
  simp only [addAttrCore, hl]
  simp

/-- C6: when the attribute already exists on every target entity type,
`_add_attribute` (with no caller-supplied subset) reports
"Attribute already exists" and its trace holds no `gsql` event — zero
remote schema-mutation commands. -/
theorem claim_C6_attribute_present_no_mutation (c : Conn)
    (schema_type attr_type a : String)
    (hkind : pyUpper schema_type = "VERTEX" ∨ pyUpper schema_type = "EDGE")
    (hall : ∀ t ∈ (if pyUpper schema_type = "VERTEX"
        then c.vertexTypes else c.edgeTypes),
      ∃ l, (if pyUpper schema_type = "VERTEX"
        then c.vertexAttrs else c.edgeAttrs) t = some l ∧ a ∈ l) :
    (add_attribute c schema_type attr_type (some a) none).1
      = .ok "Attribute already exists"
    ∧ countEv Event.isGsql (add_attribute c schema_type attr_type (some a) none).2
      = 0 := by
  rcases hkind with hk | hk
  · have hall' : ∀ t ∈ c.vertexTypes, ∃ l, c.vertexAttrs t = some l ∧ a ∈ l := by
      intro t ht
      have hx := hall t (by rw [if_pos hk]; exact ht)
      rwa [if_pos hk] at hx
    unfold add_attribute
    rw [if_pos hk, addAttrCore_all_present c.graphname c.vertexAttrs
      c.vertexTypes Event.getVertexTypes schema_type attr_type a
      c.gsqlResp c.randSuffix hall']
    refine ⟨rfl, ?_⟩
    rw [countEv_cons, countEv_map_tnameMeta Event.isGsql (fun t => rfl)]
    rfl
  · have hkv : pyUpper schema_type ≠ "VERTEX" := by rw [hk]; decide
    have hall' : ∀ t ∈ c.edgeTypes, ∃ l, c.edgeAttrs t = some l ∧ a ∈ l := by
      intro t ht
      have hx := hall t (by rw [if_neg hkv]; exact ht)
      rwa [if_neg hkv] at hx
    unfold add_attribute
    rw [if_neg hkv, if_pos hk, addAttrCore_all_present c.graphname c.edgeAttrs
      c.edgeTypes Event.getEdgeTypes schema_type attr_type a
      c.gsqlResp c.randSuffix hall']
    refine ⟨rfl, ?_⟩
    rw [countEv_cons, countEv_map_tnameMeta Event.isGsql (fun t => rfl)]
    rfl

/-- C6 witness: attribute `name` already present on every vertex type of
the concrete schema (also exercising the case-insensitive kind). -/
theorem claim_C6_attribute_present_no_mutation_witness :
    (add_attribute connSchema "vertex" "INT" (some "name") none).1
      = .ok "Attribute already exists"
    ∧ countEv Event.isGsql (add_attribute connSchema "vertex" "INT"
        (some "name") none).2 = 0 :=
  claim_C6_attribute_present_no_mutation connSchema "vertex" "INT" "name"
    (Or.inl (by decide))
    (by
      intro t ht
      rw [if_pos (by decide : pyUpper "vertex" = "VERTEX")] at ht ⊢
      fin_cases ht <;> exact ⟨["name"], by decide, by decide⟩)

end PyTG
